import Mathlib

/-!
Shallow embedding of the reconciliation decision engine of
backend/interfaces/nomadcluster/client.go: the change classifier
(hasUpdate), the cluster state reader (GetCurrentClusterState), the apply
protocol (UpdateJob) and the event-batch handler of SubscribeJobChanges.
Scheduler interactions are modelled by an explicit environment record and
an effect trace; Go maps are modelled as association lists with
first-occurrence update semantics.
-/

namespace NomadOps

/-- Metadata key constants of client.go. -/
def metaKeyOps : String := "nomadops"

def metaKeySrcID : String := "nomadopssrcid"

def metaKeySrcUrl : String := "nomadopssrcurl"

def metaKeySrcCommit : String := "nomadopssrccommit"

def metaKeyForceRestart : String := "nomadopsforcerestart"

/-- fmt.Sprintf("Meta[%s]", k) as used inside hasUpdate. -/
def metaFieldName (k : String) : String := "Meta[" ++ k ++ "]"

/-- A Go map[string]string, modelled as an association list; `setMeta`
replaces the binding of an existing key in place and appends a new key at
the end, matching map update semantics on lists with unique keys. -/
abbrev Metadata := List (String × String)

def setMeta (m : Metadata) (k v : String) : Metadata :=
  match m with
  | [] => [(k, v)]
  | (k', v') :: rest => if k' == k then (k, v) :: rest else (k', v') :: setMeta rest k v

def getMeta (m : Metadata) (k : String) : Option String :=
  (m.find? (fun p => p.1 == k)).map (fun p => p.2)

/-- Go map read with the zero value for a missing key (m[k] yields ""). -/
def lookupDefault (m : Metadata) (k : String) : String :=
  (getMeta m k).getD ""

/-- One entry of api.FieldDiff; hasUpdate consults only its Name. -/
structure FieldDiff where
  name : String
deriving DecidableEq, Repr

/-- One entry of api.ObjectDiff; hasUpdate consults only the count. -/
structure ObjectDiff where
  name : String
deriving DecidableEq, Repr

/-- api.TaskDiff as consulted by hasUpdate. -/
structure TaskDiff where
  fields : List FieldDiff
  objects : List ObjectDiff
deriving DecidableEq, Repr

/-- api.TaskGroupDiff as consulted by hasUpdate. -/
structure TaskGroupDiff where
  fields : List FieldDiff
  objects : List ObjectDiff
  tasks : List TaskDiff
deriving DecidableEq, Repr

/-- diffResp.Diff: the top-level api.JobDiff of a plan response. -/
structure JobDiff where
  fields : List FieldDiff
  objects : List ObjectDiff
  taskGroups : List TaskGroupDiff
deriving DecidableEq, Repr

/-- One task of the subgroup loop of hasUpdate has a nonempty diff. -/
def taskHasDiff (t : TaskDiff) : Bool :=
  t.fields.length > 0 || t.objects.length > 0

/-- One task group of the subgroup loop of hasUpdate has a nonempty diff. -/
def taskGroupHasDiff (tg : TaskGroupDiff) : Bool :=
  tg.fields.length > 0 || tg.objects.length > 0 || tg.tasks.any taskHasDiff

/-- hasUpdate of client.go. Top-level object diffs always count; the
top-level field branch returns true unless the single changed field is the
source-commit or force-restart metadata field and neither restart nor force
is set (in which case it falls through); then any task-group or task level
field or object diff counts; otherwise the result is the initial hasDiff,
which the Go code never changes from false. -/
def hasUpdate (diff : JobDiff) (restart force : Bool) : Bool :=
  if diff.objects.length > 0 then
    true
  else
    (match diff.fields with
     | [] => false
     | f0 :: rest =>
        (f0 :: rest).length != 1 ||
        (f0.name != metaFieldName metaKeySrcCommit &&
         f0.name != metaFieldName metaKeyForceRestart) ||
        force || restart)
    || diff.taskGroups.any taskGroupHasDiff

/-- domain.Source, restricted to the fields client.go reads. -/
structure Source where
  id : String
  url : String
  nspace : String
  region : String
  createNamespace : Bool
  paused : Bool
  force : Bool
deriving DecidableEq, Repr

/-- application.JobInfo as consumed by client.go: the ID/Name of the wrapped api.Job, optional namespace, Meta map, and the provenance commit
(job.GitInfo.GitCommit). -/
structure JobInfo where
  id : String
  name : String
  jobNamespace : Option String
  meta : Metadata
  gitCommit : String
deriving DecidableEq, Repr

/-- The loop body of GetCurrentClusterState: each list element models the
result of the Jobs().Info call for one listed job. The first fetch error
aborts the whole read; a fetched job is dropped when its meta is empty or
when its source-id entry (the Go zero value "" when absent) differs from
the ID of the Source. The ownership marker key is not consulted. -/
def collectOwned (source : Source) : List (Except String JobInfo) → Except String (List (String × JobInfo))
  | [] => Except.ok []
  | Except.error e :: _ => Except.error e
  | Except.ok j :: rest =>
    if j.meta.length == 0 then collectOwned source rest
    else if lookupDefault j.meta metaKeySrcID != source.id then collectOwned source rest
    else (collectOwned source rest).map (fun acc => (j.name, j) :: acc)

/-- GetCurrentClusterState of client.go: the initial Jobs().List result is
modelled by listOutcome and the per-job Jobs().Info results by infos; the
ok value is CurrentJobs as name-to-job bindings. -/
def GetCurrentClusterState (source : Source) (listOutcome : Except String Unit)
    (infos : List (Except String JobInfo)) : Except String (List (String × JobInfo)) :=
  match listOutcome with
  | Except.error e => Except.error e
  | Except.ok _ => collectOwned source infos

/-- sub starts the given character list. -/
def startsWithChars : List Char → List Char → Bool
  | [], _ => true
  | _ :: _, [] => false
  | a :: as, b :: bs => a == b && startsWithChars as bs

/-- sub occurs contiguously somewhere in the given character list. -/
def containsChars (sub : List Char) : List Char → Bool
  | [] => startsWithChars sub []
  | c :: rest => startsWithChars sub (c :: rest) || containsChars sub rest

/-- strings.ToLower, as per-character lowering. -/
def strToLower (s : String) : String := String.mk (s.data.map Char.toLower)

/-- strings.Contains: sub occurs as a contiguous substring of s. -/
def strContains (s sub : String) : Bool := containsChars sub.data s.data

/-- The "low effort not found detection" of UpdateJob. -/
def isNotFoundErr (e : String) : Bool :=
  strContains (strToLower e) "not found"

/-- api.Deployment, restricted to the Status field read by UpdateJob. -/
structure Deployment where
  status : String
deriving DecidableEq, Repr

/-- application.UpdateJobInfo: Updated flag plus DeploymentStatus.Status. -/
structure UpdateJobInfo where
  updated : Bool
  deploymentStatus : String
deriving DecidableEq, Repr

/-- One scheduler call issued by UpdateJob, recorded in order. -/
inductive Effect where
  | registerNamespace (name : String) (meta : Metadata)
  | plan (job : JobInfo)
  | queryDeployment (jobId : String)
  | register (job : JobInfo)
deriving DecidableEq, Repr

def isRegisterEffect : Effect → Bool
  | Effect.register _ => true
  | _ => false

/-- Results the scheduler returns to one UpdateJob call:
Namespaces().Register, Jobs().Plan (its Diff), Jobs().LatestDeployment
(which yields both an optional deployment and an optional error, as the Go
call returns two values), and Jobs().Register. -/
structure ClusterEnv where
  nsRegisterOutcome : Except String Unit
  planOutcome : Except String JobDiff
  latestDeployment : Option Deployment × Option String
  registerOutcome : Except String Unit
deriving Repr

/-- The ownership-tagging block of UpdateJob: start from job.Job.Meta (the
empty map when nil), set the ownership marker, source url, source id and
source commit, and, only when restart is requested, the force-restart key
to the current timestamp. -/
def tagMetadata (src : Source) (job : JobInfo) (restart : Bool) (now : String) : Metadata :=
  let metadata := job.meta
  let metadata := setMeta metadata metaKeyOps "true"
  let metadata := setMeta metadata metaKeySrcUrl src.url
  let metadata := setMeta metadata metaKeySrcID src.id
  let metadata := setMeta metadata metaKeySrcCommit job.gitCommit
  if restart then setMeta metadata metaKeyForceRestart now else metadata

/-- job.Meta = metadata: the job is passed to UpdateJob by pointer, so this
assignment updates the JobInfo held by the caller; modelled as explicit state
passing of the JobInfo value. -/
def tagJob (src : Source) (job : JobInfo) (restart : Bool) (now : String) : JobInfo :=
  { job with meta := tagMetadata src job restart now }

/-- deploymentStatus after the LatestDeployment call: the Status of the deployment when one was returned, otherwise the empty string. -/
def depStatus (d : Option Deployment) : String :=
  match d with
  | some x => x.status
  | none => ""

/-- UpdateJob of client.go, from the Plan call onward (after the optional
namespace step): tag the job, plan it, query the latest deployment
(tolerating a not-found error), run hasUpdate, and register unless the
Source is paused. Returns the outcome or error, the caller-visible JobInfo
state, and the ordered trace of scheduler calls. -/
def updateJobAfterNs (env : ClusterEnv) (src : Source) (job0 : JobInfo) (restart : Bool)
    (now : String) : Except String UpdateJobInfo × JobInfo × List Effect :=
  let job := tagJob src job0 restart now
  let trace0 := [Effect.plan job]
  match env.planOutcome with
  | Except.error e => (Except.error e, job, trace0)
  | Except.ok diff =>
    let trace1 := trace0 ++ [Effect.queryDeployment job.id]
    let fatal : Bool :=
      match env.latestDeployment.2 with
      | some e => !isNotFoundErr e
      | none => false
    if fatal then
      (Except.error ((env.latestDeployment.2).getD ""), job, trace1)
    else
      let deploymentStatus := depStatus env.latestDeployment.1
      if !hasUpdate diff restart src.force then
        (Except.ok { updated := false, deploymentStatus := deploymentStatus }, job, trace1)
      else if !src.paused then
        let trace2 := trace1 ++ [Effect.register job]
        match env.registerOutcome with
        | Except.error e => (Except.error e, job, trace2)
        | Except.ok _ =>
          (Except.ok { updated := true, deploymentStatus := deploymentStatus }, job, trace2)
      else
        (Except.ok { updated := true, deploymentStatus := deploymentStatus }, job, trace1)

/-- UpdateJob of client.go, namespace step included: when
src.CreateNamespace is set, a job without a namespace is a configuration
error, and otherwise the namespace is registered with the ownership marker
before the rest of the protocol runs. -/
def UpdateJob (env : ClusterEnv) (src : Source) (job0 : JobInfo) (restart : Bool)
    (now : String) : Except String UpdateJobInfo × JobInfo × List Effect :=
  if src.createNamespace then
    match job0.jobNamespace with
    | none =>
      (Except.error "require a namespace to be set in conjunction with 'CreateNamespace'",
        job0, [])
    | some ns =>
      let trace0 := [Effect.registerNamespace ns [(metaKeyOps, "true")]]
      match env.nsRegisterOutcome with
      | Except.error e => (Except.error e, job0, trace0)
      | Except.ok _ =>
        let r := updateJobAfterNs env src job0 restart now
        (r.1, r.2.1, trace0 ++ r.2.2)
  else
    updateJobAfterNs env src job0 restart now

/-- Scenario Source of the spec: id "s1". -/
def srcS1 : Source :=
  { id := "s1", url := "http://git.example", nspace := "ns1", region := "",
    createNamespace := false, paused := false, force := false }

/-- Scenario workload "web" owned by "s1". -/
def jobWeb : JobInfo :=
  { id := "web", name := "web", jobNamespace := some "ns1",
    meta := [(metaKeyOps, "true"), (metaKeySrcID, "s1")], gitCommit := "abc" }

/-- Scenario workload "unmanaged" with empty metadata. -/
def jobUnmanaged : JobInfo :=
  { id := "unmanaged", name := "unmanaged", jobNamespace := none, meta := [], gitCommit := "" }

/-- A workload carrying the matching source-id entry but no ownership
marker at all. -/
def jobMarkerless : JobInfo :=
  { id := "markerless", name := "markerless", jobNamespace := none,
    meta := [(metaKeySrcID, "s1")], gitCommit := "zzz" }

end NomadOps

namespace NomadOps

/-- Every binding of a successful collectOwned result has nonempty
metadata and a source-id entry equal to the id of the Source. -/
theorem collectOwned_mem (source : Source) (infos : List (Except String JobInfo))
    (result : List (String × JobInfo)) (hres : collectOwned source infos = Except.ok result) :
    ∀ p ∈ result, p.2.meta ≠ [] ∧ lookupDefault p.2.meta metaKeySrcID = source.id := by
  induction infos generalizing result with
  | nil =>
    simp [collectOwned] at hres
    subst hres
    simp
  | cons hd rest ih =>
    rcases hd with e | j
    · simp [collectOwned] at hres
    · rw [collectOwned] at hres
      by_cases h1 : (j.meta.length == 0) = true
      · rw [if_pos h1] at hres
        exact ih result hres
      · rw [if_neg h1] at hres
        by_cases h2 : (lookupDefault j.meta metaKeySrcID != source.id) = true
        · rw [if_pos h2] at hres
          exact ih result hres
        · rw [if_neg h2] at hres
          cases hrest : collectOwned source rest with
          | error e =>
            rw [hrest] at hres
            simp [Except.map] at hres
          | ok acc =>
            rw [hrest] at hres
            simp [Except.map] at hres
            subst hres
            intro p hp
            rcases List.mem_cons.mp hp with hp | hp
            · subst hp
              refine ⟨fun hnil => h1 ?_, ?_⟩
              · simp
                simpa using hnil
              · simpa using h2
            · exact ih acc hrest p hp

/-- C1 counterexample: a workload whose non-empty metadata carries the
matching source-id entry but no ownership marker is returned by
GetCurrentClusterState, so the claimed exclusion of marker-less workloads
fails at this concrete listing. -/
theorem getCurrentClusterState_marker_counterexample :
    GetCurrentClusterState srcS1 (Except.ok ()) [Except.ok jobMarkerless] =
      Except.ok [("markerless", jobMarkerless)] ∧
    getMeta jobMarkerless.meta metaKeyOps = none := by
  constructor
  · rfl
  · rfl

/-- C1 amended: for every listing, a successful GetCurrentClusterState
returns no workload whose metadata is empty or whose source-id metadata
value (the empty string when absent) differs from the identifier of the Source;
the ownership marker key itself is not consulted by the filter. -/
theorem getCurrentClusterState_filters_by_source_id (source : Source)
    (listOutcome : Except String Unit) (infos : List (Except String JobInfo))
    (result : List (String × JobInfo))
    (hres : GetCurrentClusterState source listOutcome infos = Except.ok result) :
    ∀ p ∈ result, p.2.meta ≠ [] ∧ lookupDefault p.2.meta metaKeySrcID = source.id := by
  cases listOutcome with
  | error e => simp [GetCurrentClusterState] at hres
  | ok u => exact collectOwned_mem source infos result hres

theorem getCurrentClusterState_filters_by_source_id_witness :
    GetCurrentClusterState srcS1 (Except.ok ()) [Except.ok jobWeb, Except.ok jobUnmanaged] =
      Except.ok [("web", jobWeb)] ∧
    ∀ p ∈ [(("web" : String), jobWeb)],
      p.2.meta ≠ [] ∧ lookupDefault p.2.meta metaKeySrcID = srcS1.id :=
  ⟨rfl,
    getCurrentClusterState_filters_by_source_id srcS1 (Except.ok ())
      [Except.ok jobWeb, Except.ok jobUnmanaged] [("web", jobWeb)] rfl⟩

/-- When the classifier reports no update and the plan and deployment
query succeed, the post-namespace part of UpdateJob returns updated=false
with the pre-existing status and issues only the plan and query calls. -/
theorem updateJobAfterNs_no_update (env : ClusterEnv) (src : Source) (job0 : JobInfo)
    (restart : Bool) (now : String) (diff : JobDiff)
    (hplan : env.planOutcome = Except.ok diff)
    (hupd : hasUpdate diff restart src.force = false)
    (hdep : env.latestDeployment.2 = none ∨
      ∃ e, env.latestDeployment.2 = some e ∧ isNotFoundErr e = true) :
    updateJobAfterNs env src job0 restart now =
      (Except.ok { updated := false, deploymentStatus := depStatus env.latestDeployment.1 },
       tagJob src job0 restart now,
       [Effect.plan (tagJob src job0 restart now),
        Effect.queryDeployment (tagJob src job0 restart now).id]) := by
  have hfatal : (match env.latestDeployment.2 with
      | some e => !isNotFoundErr e
      | none => false) = false := by
    rcases hdep with h | ⟨e, he, hnf⟩
    · rw [h]
    · rw [he]
      simp [hnf]
  unfold updateJobAfterNs
  rw [hplan]
  simp [hfatal, hupd]

/-- C2: a diff whose only change is the single top-level source-commit
field, with restart and force unset, requires no update; consequently
UpdateJob over such a plan result returns updated=false with the
pre-existing deployment status and never issues a register call. -/
theorem hasUpdate_noise_only_commit_false (f : FieldDiff) (tgs : List TaskGroupDiff)
    (env : ClusterEnv) (src : Source) (job0 : JobInfo) (now : String)
    (hname : f.name = metaFieldName metaKeySrcCommit)
    (htgs : tgs.any taskGroupHasDiff = false)
    (hforce : src.force = false)
    (hns : src.createNamespace = false)
    (hplan : env.planOutcome = Except.ok { fields := [f], objects := [], taskGroups := tgs })
    (hdep : env.latestDeployment.2 = none) :
    hasUpdate { fields := [f], objects := [], taskGroups := tgs } false false = false ∧
    (UpdateJob env src job0 false now).1 =
      Except.ok { updated := false, deploymentStatus := depStatus env.latestDeployment.1 } ∧
    (UpdateJob env src job0 false now).2.2.all (fun eff => !isRegisterEffect eff) = true := by
  have hu : hasUpdate { fields := [f], objects := [], taskGroups := tgs } false false = false := by
    simp [hasUpdate, hname, htgs]
  have hu2 : hasUpdate { fields := [f], objects := [], taskGroups := tgs } false src.force =
      false := by
    rw [hforce]
    exact hu
  have hcore := updateJobAfterNs_no_update env src job0 false now
    { fields := [f], objects := [], taskGroups := tgs } hplan hu2 (Or.inl hdep)
  refine ⟨hu, ?_, ?_⟩
  · unfold UpdateJob
    rw [hns]
    simp [hcore]
  · unfold UpdateJob
    rw [hns]
    simp [hcore, isRegisterEffect]

theorem hasUpdate_noise_only_commit_false_witness :
    (FieldDiff.mk (metaFieldName metaKeySrcCommit)).name = metaFieldName metaKeySrcCommit ∧
    hasUpdate { fields := [FieldDiff.mk (metaFieldName metaKeySrcCommit)],
                objects := [], taskGroups := [] } false false = false ∧
    (UpdateJob
        { nsRegisterOutcome := Except.ok (),
          planOutcome := Except.ok
            { fields := [FieldDiff.mk (metaFieldName metaKeySrcCommit)], objects := [],
              taskGroups := [] },
          latestDeployment := (some { status := "successful" }, none),
          registerOutcome := Except.ok () }
        srcS1 jobWeb false "2024-01-01T00:00:00Z").1 =
      Except.ok { updated := false, deploymentStatus := "successful" } ∧
    (UpdateJob
        { nsRegisterOutcome := Except.ok (),
          planOutcome := Except.ok
            { fields := [FieldDiff.mk (metaFieldName metaKeySrcCommit)], objects := [],
              taskGroups := [] },
          latestDeployment := (some { status := "successful" }, none),
          registerOutcome := Except.ok () }
        srcS1 jobWeb false "2024-01-01T00:00:00Z").2.2.all
      (fun eff => !isRegisterEffect eff) = true := by
  have h := hasUpdate_noise_only_commit_false (FieldDiff.mk (metaFieldName metaKeySrcCommit)) []
    { nsRegisterOutcome := Except.ok (),
      planOutcome := Except.ok
        { fields := [FieldDiff.mk (metaFieldName metaKeySrcCommit)], objects := [],
          taskGroups := [] },
      latestDeployment := (some { status := "successful" }, none),
      registerOutcome := Except.ok () }
    srcS1 jobWeb "2024-01-01T00:00:00Z" rfl rfl rfl rfl rfl rfl
  exact ⟨rfl, h.1, h.2.1, h.2.2⟩

/-- C3 counterexample: on the entirely empty diff, hasUpdate returns false
even though force is true, because the force flag is only consulted inside
the branch requiring at least one top-level field diff entry. -/
theorem hasUpdate_force_empty_diff_counterexample :
    hasUpdate { fields := [], objects := [], taskGroups := [] } false true = false := by
  decide

/-- C3 amended: if force is true and the DiffResult has at least one diff
entry anywhere (top-level object, top-level field, or a nonempty task-group
or task subdiff), then hasUpdate returns true, for every restart value; on
the entirely empty diff hasUpdate is false regardless of force. -/
theorem hasUpdate_force_true_of_nonempty (diff : JobDiff) (restart : Bool)
    (h : diff.objects ≠ [] ∨ diff.fields ≠ [] ∨ diff.taskGroups.any taskGroupHasDiff = true) :
    hasUpdate diff restart true = true := by
  rcases h with h | h | h
  · simp [hasUpdate, List.length_pos.mpr h]
  · rcases diff with ⟨fields, objects, tgs⟩
    rcases fields with _ | ⟨f0, rest⟩
    · simp at h
    · simp [hasUpdate]
  · simp [hasUpdate, h]

theorem hasUpdate_force_true_of_nonempty_witness :
    (({ fields := [FieldDiff.mk "ID"], objects := [], taskGroups := [] } : JobDiff).objects ≠ [] ∨
      ({ fields := [FieldDiff.mk "ID"], objects := [], taskGroups := [] } : JobDiff).fields ≠ [] ∨
      ({ fields := [FieldDiff.mk "ID"], objects := [], taskGroups := [] } : JobDiff).taskGroups.any
        taskGroupHasDiff = true) ∧
    hasUpdate { fields := [FieldDiff.mk "ID"], objects := [], taskGroups := [] } false true = true :=
  ⟨Or.inr (Or.inl (by decide)),
    hasUpdate_force_true_of_nonempty
      { fields := [FieldDiff.mk "ID"], objects := [], taskGroups := [] } false
      (Or.inr (Or.inl (by decide)))⟩

/-- C4: when the only change is a single top-level field named after the
source-commit or force-restart metadata key, setting restart or force makes
hasUpdate return true. -/
theorem hasUpdate_noise_only_with_override_true (f : FieldDiff) (tgs : List TaskGroupDiff)
    (restart force : Bool)
    (hname : f.name = metaFieldName metaKeySrcCommit ∨ f.name = metaFieldName metaKeyForceRestart)
    (hflag : restart = true ∨ force = true) :
    hasUpdate { fields := [f], objects := [], taskGroups := tgs } restart force = true := by
  rcases hflag with h | h <;> simp [hasUpdate, h]

theorem hasUpdate_noise_only_with_override_true_witness :
    ((FieldDiff.mk (metaFieldName metaKeyForceRestart)).name = metaFieldName metaKeySrcCommit ∨
     (FieldDiff.mk (metaFieldName metaKeyForceRestart)).name = metaFieldName metaKeyForceRestart) ∧
    (true = true ∨ false = true) ∧
    hasUpdate { fields := [FieldDiff.mk (metaFieldName metaKeyForceRestart)],
                objects := [], taskGroups := [] } true false = true :=
  ⟨Or.inr rfl, Or.inl rfl,
    hasUpdate_noise_only_with_override_true (FieldDiff.mk (metaFieldName metaKeyForceRestart)) []
      true false (Or.inr rfl) (Or.inl rfl)⟩

/-- C5: a diff with two or more top-level field entries requires an update
for all flag values. -/
theorem hasUpdate_multi_field_true (diff : JobDiff) (restart force : Bool)
    (h : 2 ≤ diff.fields.length) :
    hasUpdate diff restart force = true := by
  rcases diff with ⟨fields, objects, tgs⟩
  rcases fields with _ | ⟨f0, rest⟩
  · simp at h
  · rcases rest with _ | ⟨f1, rest⟩
    · simp at h
    · simp [hasUpdate]

theorem hasUpdate_multi_field_true_witness :
    2 ≤ ({ fields := [FieldDiff.mk "ID", FieldDiff.mk "Name"], objects := [],
           taskGroups := [] } : JobDiff).fields.length ∧
    hasUpdate { fields := [FieldDiff.mk "ID", FieldDiff.mk "Name"], objects := [],
                taskGroups := [] } false false = true :=
  ⟨by decide,
    hasUpdate_multi_field_true
      { fields := [FieldDiff.mk "ID", FieldDiff.mk "Name"], objects := [], taskGroups := [] }
      false false (by decide)⟩

/-- C10: with a single noise-only top-level field and both flags unset, the
field branch does not decide the result; a nonempty task-group or task
subdiff still makes hasUpdate return true. -/
theorem hasUpdate_noise_only_subgroup_true (f : FieldDiff) (tgs : List TaskGroupDiff)
    (hname : f.name = metaFieldName metaKeySrcCommit ∨ f.name = metaFieldName metaKeyForceRestart)
    (htgs : tgs.any taskGroupHasDiff = true) :
    hasUpdate { fields := [f], objects := [], taskGroups := tgs } false false = true := by
  rcases hname with h | h <;> simp [hasUpdate, h, htgs]

theorem hasUpdate_noise_only_subgroup_true_witness :
    ((FieldDiff.mk (metaFieldName metaKeySrcCommit)).name = metaFieldName metaKeySrcCommit ∨
     (FieldDiff.mk (metaFieldName metaKeySrcCommit)).name = metaFieldName metaKeyForceRestart) ∧
    ([TaskGroupDiff.mk [FieldDiff.mk "Count"] [] []]).any taskGroupHasDiff = true ∧
    hasUpdate { fields := [FieldDiff.mk (metaFieldName metaKeySrcCommit)], objects := [],
                taskGroups := [TaskGroupDiff.mk [FieldDiff.mk "Count"] [] []] } false false = true :=
  ⟨Or.inl rfl, by decide,
    hasUpdate_noise_only_subgroup_true (FieldDiff.mk (metaFieldName metaKeySrcCommit))
      [TaskGroupDiff.mk [FieldDiff.mk "Count"] [] []] (Or.inl rfl) (by decide)⟩

/-- Reading back the key just written by setMeta yields the new value. -/
theorem getMeta_setMeta_same (m : Metadata) (k v : String) :
    getMeta (setMeta m k v) k = some v := by
  induction m with
  | nil => simp [setMeta, getMeta]
  | cons p rest ih =>
    rcases p with ⟨k', v'⟩
    by_cases h : (k' == k) = true
    · simp [setMeta, h, getMeta]
    · have hb : (k' == k) = false := by simpa using h
      simp only [setMeta, hb, Bool.false_eq_true, if_false]
      simp only [getMeta, List.find?, hb] at ih ⊢
      exact ih

/-- setMeta leaves the bindings of every other key unchanged. -/
theorem getMeta_setMeta_other (m : Metadata) (k v k2 : String) (hk : k2 ≠ k) :
    getMeta (setMeta m k v) k2 = getMeta m k2 := by
  have hkk : (k == k2) = false := beq_eq_false_iff_ne.mpr hk.symm
  induction m with
  | nil => simp [setMeta, getMeta, List.find?, hkk]
  | cons p rest ih =>
    rcases p with ⟨k', v'⟩
    by_cases h : (k' == k) = true
    · have hk' : k' = k := by simpa using h
      subst hk'
      simp [setMeta, getMeta, List.find?, hkk]
    · have hb : (k' == k) = false := by simpa using h
      by_cases h2 : (k' == k2) = true
      · simp [setMeta, hb, getMeta, List.find?, h2]
      · have hb2 : (k' == k2) = false := by simpa using h2
        simp only [setMeta, hb, Bool.false_eq_true, if_false]
        simp only [getMeta, List.find?, hb2] at ih ⊢
        exact ih

end NomadOps

namespace NomadOps

/-- C9 counterexample: the tagging step of UpdateJob does not leave the
caller-supplied WorkloadSpec unmodified: the job is passed by pointer and
job.Meta is assigned the new mapping, so after the call the JobInfo held
by the caller carries metadata different from what it held before. -/
theorem updateJob_mutates_caller_metadata_counterexample :
    (UpdateJob
        { nsRegisterOutcome := Except.ok (),
          planOutcome := Except.ok { fields := [], objects := [], taskGroups := [] },
          latestDeployment := (none, none),
          registerOutcome := Except.ok () }
        srcS1 jobWeb false "2024-01-01T00:00:00Z").2.1.meta ≠ jobWeb.meta := by
  decide

/-- C9 amended: the tagging step is a pure function of (Source,
WorkloadSpec, restart flag, current time) producing a mapping with the
ownership marker set to "true", the source id, url and provenance commit
set, the force-restart key set to the current timestamp when restart is
requested and left as in the input otherwise; this mapping is then stored
into the caller-supplied WorkloadSpec rather than leaving it unmodified. -/
theorem tagMetadata_spec (src : Source) (job : JobInfo) (restart : Bool) (now : String) :
    getMeta (tagMetadata src job restart now) metaKeyOps = some "true" ∧
    getMeta (tagMetadata src job restart now) metaKeySrcUrl = some src.url ∧
    getMeta (tagMetadata src job restart now) metaKeySrcID = some src.id ∧
    getMeta (tagMetadata src job restart now) metaKeySrcCommit = some job.gitCommit ∧
    (restart = true → getMeta (tagMetadata src job restart now) metaKeyForceRestart = some now) ∧
    (restart = false → getMeta (tagMetadata src job restart now) metaKeyForceRestart =
       getMeta job.meta metaKeyForceRestart) ∧
    (tagJob src job restart now).meta = tagMetadata src job restart now ∧
    (tagJob src job restart now).id = job.id ∧
    (tagJob src job restart now).name = job.name := by
  have hfalse : tagMetadata src job false now =
      setMeta (setMeta (setMeta (setMeta job.meta metaKeyOps "true") metaKeySrcUrl src.url)
        metaKeySrcID src.id) metaKeySrcCommit job.gitCommit := rfl
  have htrue : tagMetadata src job true now =
      setMeta (setMeta (setMeta (setMeta (setMeta job.meta metaKeyOps "true")
        metaKeySrcUrl src.url) metaKeySrcID src.id) metaKeySrcCommit job.gitCommit)
        metaKeyForceRestart now := rfl
  cases restart with
  | false =>
    refine ⟨?_, ?_, ?_, ?_, ?_, ?_, rfl, rfl, rfl⟩
    · rw [hfalse, getMeta_setMeta_other _ metaKeySrcCommit job.gitCommit metaKeyOps (by decide),
          getMeta_setMeta_other _ metaKeySrcID src.id metaKeyOps (by decide),
          getMeta_setMeta_other _ metaKeySrcUrl src.url metaKeyOps (by decide),
          getMeta_setMeta_same]
    · rw [hfalse, getMeta_setMeta_other _ metaKeySrcCommit job.gitCommit metaKeySrcUrl (by decide),
          getMeta_setMeta_other _ metaKeySrcID src.id metaKeySrcUrl (by decide),
          getMeta_setMeta_same]
    · rw [hfalse, getMeta_setMeta_other _ metaKeySrcCommit job.gitCommit metaKeySrcID (by decide),
          getMeta_setMeta_same]
    · rw [hfalse, getMeta_setMeta_same]
    · exact fun h => nomatch h
    · intro _
      rw [hfalse,
          getMeta_setMeta_other _ metaKeySrcCommit job.gitCommit metaKeyForceRestart (by decide),
          getMeta_setMeta_other _ metaKeySrcID src.id metaKeyForceRestart (by decide),
          getMeta_setMeta_other _ metaKeySrcUrl src.url metaKeyForceRestart (by decide),
          getMeta_setMeta_other _ metaKeyOps "true" metaKeyForceRestart (by decide)]
  | true =>
    refine ⟨?_, ?_, ?_, ?_, ?_, ?_, rfl, rfl, rfl⟩
    · rw [htrue, getMeta_setMeta_other _ metaKeyForceRestart now metaKeyOps (by decide),
          getMeta_setMeta_other _ metaKeySrcCommit job.gitCommit metaKeyOps (by decide),
          getMeta_setMeta_other _ metaKeySrcID src.id metaKeyOps (by decide),
          getMeta_setMeta_other _ metaKeySrcUrl src.url metaKeyOps (by decide),
          getMeta_setMeta_same]
    · rw [htrue, getMeta_setMeta_other _ metaKeyForceRestart now metaKeySrcUrl (by decide),
          getMeta_setMeta_other _ metaKeySrcCommit job.gitCommit metaKeySrcUrl (by decide),
          getMeta_setMeta_other _ metaKeySrcID src.id metaKeySrcUrl (by decide),
          getMeta_setMeta_same]
    · rw [htrue, getMeta_setMeta_other _ metaKeyForceRestart now metaKeySrcID (by decide),
          getMeta_setMeta_other _ metaKeySrcCommit job.gitCommit metaKeySrcID (by decide),
          getMeta_setMeta_same]
    · rw [htrue, getMeta_setMeta_other _ metaKeyForceRestart now metaKeySrcCommit (by decide),
          getMeta_setMeta_same]
    · intro _
      rw [htrue, getMeta_setMeta_same]
    · exact fun h => nomatch h

/-- When the Source is paused, the plan succeeds, the classifier demands
an update and the deployment query is non-fatal, the post-namespace part
of UpdateJob returns updated=true with the pre-submission status and its
trace is exactly the plan and deployment-query calls. -/
theorem updateJobAfterNs_paused (env : ClusterEnv) (src : Source) (job0 : JobInfo)
    (restart : Bool) (now : String) (diff : JobDiff)
    (hpaused : src.paused = true)
    (hplan : env.planOutcome = Except.ok diff)
    (hupd : hasUpdate diff restart src.force = true)
    (hdep : env.latestDeployment.2 = none ∨
      ∃ e, env.latestDeployment.2 = some e ∧ isNotFoundErr e = true) :
    updateJobAfterNs env src job0 restart now =
      (Except.ok { updated := true, deploymentStatus := depStatus env.latestDeployment.1 },
       tagJob src job0 restart now,
       [Effect.plan (tagJob src job0 restart now),
        Effect.queryDeployment (tagJob src job0 restart now).id]) := by
  have hfatal : (match env.latestDeployment.2 with
      | some e => !isNotFoundErr e
      | none => false) = false := by
    rcases hdep with h | ⟨e, he, hnf⟩
    · rw [h]
    · rw [he]
      simp [hnf]
  unfold updateJobAfterNs
  rw [hplan]
  simp [hfatal, hupd, hpaused]

/-- C6: with Source.paused = true, a successful plan whose diff the change
classifier marks as requiring an update, and a non-fatal deployment query,
UpdateJob issues no register call (its trace holds no register effect) and
still returns updated=true with the deployment status captured before the
skipped submission. -/
theorem updateJob_paused_dry_run (env : ClusterEnv) (src : Source) (job0 : JobInfo)
    (restart : Bool) (now : String) (diff : JobDiff)
    (hpaused : src.paused = true)
    (hns : src.createNamespace = false ∨
      (∃ ns, job0.jobNamespace = some ns ∧ env.nsRegisterOutcome = Except.ok ()))
    (hplan : env.planOutcome = Except.ok diff)
    (hupd : hasUpdate diff restart src.force = true)
    (hdep : env.latestDeployment.2 = none ∨
      ∃ e, env.latestDeployment.2 = some e ∧ isNotFoundErr e = true) :
    (UpdateJob env src job0 restart now).1 =
      Except.ok { updated := true, deploymentStatus := depStatus env.latestDeployment.1 } ∧
    (UpdateJob env src job0 restart now).2.2.all (fun eff => !isRegisterEffect eff) = true := by
  have hcore := updateJobAfterNs_paused env src job0 restart now diff hpaused hplan hupd hdep
  rcases hns with hcn | ⟨ns, hjns, hreg⟩
  · unfold UpdateJob
    rw [hcn]
    simp only [Bool.false_eq_true, if_false, hcore]
    exact ⟨trivial, by simp [isRegisterEffect]⟩
  · unfold UpdateJob
    cases hcnv : src.createNamespace with
    | false =>
      simp only [Bool.false_eq_true, if_false, hcore]
      exact ⟨trivial, by simp [isRegisterEffect]⟩
    | true =>
      simp only [if_true, hjns, hreg, hcore]
      exact ⟨trivial, by simp [isRegisterEffect]⟩

theorem updateJob_paused_dry_run_witness :
    ({ id := "s1", url := "http://git.example", nspace := "ns1", region := "",
       createNamespace := false, paused := true, force := false } : Source).paused = true ∧
    (UpdateJob
        { nsRegisterOutcome := Except.ok (),
          planOutcome := Except.ok
            { fields := [FieldDiff.mk "ID", FieldDiff.mk "Name"], objects := [], taskGroups := [] },
          latestDeployment := (some { status := "successful" }, none),
          registerOutcome := Except.ok () }
        { id := "s1", url := "http://git.example", nspace := "ns1", region := "",
          createNamespace := false, paused := true, force := false }
        jobWeb false "2024-01-01T00:00:00Z").1 =
      Except.ok { updated := true, deploymentStatus := "successful" } ∧
    (UpdateJob
        { nsRegisterOutcome := Except.ok (),
          planOutcome := Except.ok
            { fields := [FieldDiff.mk "ID", FieldDiff.mk "Name"], objects := [], taskGroups := [] },
          latestDeployment := (some { status := "successful" }, none),
          registerOutcome := Except.ok () }
        { id := "s1", url := "http://git.example", nspace := "ns1", region := "",
          createNamespace := false, paused := true, force := false }
        jobWeb false "2024-01-01T00:00:00Z").2.2.all (fun eff => !isRegisterEffect eff) = true :=
  ⟨rfl,
    updateJob_paused_dry_run
      { nsRegisterOutcome := Except.ok (),
        planOutcome := Except.ok
          { fields := [FieldDiff.mk "ID", FieldDiff.mk "Name"], objects := [], taskGroups := [] },
        latestDeployment := (some { status := "successful" }, none),
        registerOutcome := Except.ok () }
      { id := "s1", url := "http://git.example", nspace := "ns1", region := "",
        createNamespace := false, paused := true, force := false }
      jobWeb false "2024-01-01T00:00:00Z"
      { fields := [FieldDiff.mk "ID", FieldDiff.mk "Name"], objects := [], taskGroups := [] }
      rfl (Or.inl rfl) rfl (by decide) (Or.inl rfl)⟩

/-- C8: inside UpdateJob, a failing deployment-status query whose error
text lowercased contains "not found" is recovered — the protocol proceeds
with the empty deployment status (here observed on the no-update path) —
while a failing query without that substring aborts UpdateJob with that
very error. -/
theorem updateJob_not_found_tolerance (env : ClusterEnv) (src : Source) (job0 : JobInfo)
    (restart : Bool) (now : String) (diff : JobDiff) (e : String)
    (hns : src.createNamespace = false ∨
      (∃ ns, job0.jobNamespace = some ns ∧ env.nsRegisterOutcome = Except.ok ()))
    (hplan : env.planOutcome = Except.ok diff)
    (hdep : env.latestDeployment = (none, some e)) :
    (isNotFoundErr e = true → hasUpdate diff restart src.force = false →
       (UpdateJob env src job0 restart now).1 =
         Except.ok { updated := false, deploymentStatus := "" }) ∧
    (isNotFoundErr e = false →
       (UpdateJob env src job0 restart now).1 = Except.error e) := by
  have hafter : ∀ r : Except String UpdateJobInfo,
      (∀ hnf : Bool, (match env.latestDeployment.2 with
          | some e2 => !isNotFoundErr e2
          | none => false) = hnf → True) := fun _ _ _ => trivial
  constructor
  · intro hnf hnoupd
    have hcore : (updateJobAfterNs env src job0 restart now).1 =
        Except.ok { updated := false, deploymentStatus := "" } := by
      unfold updateJobAfterNs
      rw [hplan]
      rw [hdep]
      simp [hnf, hnoupd, depStatus]
    rcases hns with hcn | ⟨ns, hjns, hreg⟩
    · unfold UpdateJob
      rw [hcn]
      simpa using hcore
    · unfold UpdateJob
      cases hcnv : src.createNamespace with
      | false => simpa using hcore
      | true => simp only [if_true, hjns, hreg]; exact hcore
  · intro hnf
    have hcore : (updateJobAfterNs env src job0 restart now).1 = Except.error e := by
      unfold updateJobAfterNs
      rw [hplan]
      rw [hdep]
      simp [hnf]
    rcases hns with hcn | ⟨ns, hjns, hreg⟩
    · unfold UpdateJob
      rw [hcn]
      simpa using hcore
    · unfold UpdateJob
      cases hcnv : src.createNamespace with
      | false => simpa using hcore
      | true => simp only [if_true, hjns, hreg]; exact hcore

theorem updateJob_not_found_tolerance_witness :
    (isNotFoundErr "Unexpected response code: 404 (deployment Not Found for job)" = true →
       hasUpdate { fields := [], objects := [], taskGroups := [] } false false = false →
       (UpdateJob
          { nsRegisterOutcome := Except.ok (),
            planOutcome := Except.ok { fields := [], objects := [], taskGroups := [] },
            latestDeployment :=
              (none, some "Unexpected response code: 404 (deployment Not Found for job)"),
            registerOutcome := Except.ok () }
          srcS1 jobWeb false "2024-01-01T00:00:00Z").1 =
         Except.ok { updated := false, deploymentStatus := "" }) ∧
    (isNotFoundErr "Unexpected response code: 404 (deployment Not Found for job)" = false →
       (UpdateJob
          { nsRegisterOutcome := Except.ok (),
            planOutcome := Except.ok { fields := [], objects := [], taskGroups := [] },
            latestDeployment :=
              (none, some "Unexpected response code: 404 (deployment Not Found for job)"),
            registerOutcome := Except.ok () }
          srcS1 jobWeb false "2024-01-01T00:00:00Z").1 =
         Except.error "Unexpected response code: 404 (deployment Not Found for job)") :=
  updateJob_not_found_tolerance
    { nsRegisterOutcome := Except.ok (),
      planOutcome := Except.ok { fields := [], objects := [], taskGroups := [] },
      latestDeployment :=
        (none, some "Unexpected response code: 404 (deployment Not Found for job)"),
      registerOutcome := Except.ok () }
    srcS1 jobWeb false "2024-01-01T00:00:00Z"
    { fields := [], objects := [], taskGroups := [] }
    "Unexpected response code: 404 (deployment Not Found for job)"
    (Or.inl rfl) rfl rfl

theorem tagMetadata_spec_witness :
    getMeta (tagMetadata srcS1 jobWeb true "2024-01-01T00:00:00Z") metaKeyOps = some "true" ∧
    getMeta (tagMetadata srcS1 jobWeb true "2024-01-01T00:00:00Z") metaKeySrcUrl =
      some srcS1.url ∧
    getMeta (tagMetadata srcS1 jobWeb true "2024-01-01T00:00:00Z") metaKeySrcID =
      some srcS1.id ∧
    getMeta (tagMetadata srcS1 jobWeb true "2024-01-01T00:00:00Z") metaKeySrcCommit =
      some jobWeb.gitCommit ∧
    (true = true → getMeta (tagMetadata srcS1 jobWeb true "2024-01-01T00:00:00Z")
       metaKeyForceRestart = some "2024-01-01T00:00:00Z") ∧
    (true = false → getMeta (tagMetadata srcS1 jobWeb true "2024-01-01T00:00:00Z")
       metaKeyForceRestart = getMeta jobWeb.meta metaKeyForceRestart) ∧
    (tagJob srcS1 jobWeb true "2024-01-01T00:00:00Z").meta =
      tagMetadata srcS1 jobWeb true "2024-01-01T00:00:00Z" ∧
    (tagJob srcS1 jobWeb true "2024-01-01T00:00:00Z").id = jobWeb.id ∧
    (tagJob srcS1 jobWeb true "2024-01-01T00:00:00Z").name = jobWeb.name :=
  tagMetadata_spec srcS1 jobWeb true "2024-01-01T00:00:00Z"

end NomadOps

namespace NomadOps

/-- One event of an api.Events batch in SubscribeJobChanges: its Type
string and the outcomes of the e.Job() and e.Deployment() decoders (the ok
value is the workload name the callback would receive: *job.ID for job
events, dep.JobID for deployment events). -/
structure RawEvent where
  etype : String
  jobPayload : Except String String
  deploymentPayload : Except String String
deriving Repr

/-- The eventHandler closure of SubscribeJobChanges, returning the
workload names passed to the callback, in order. JobRegistered and
JobDeregistered events decode via e.Job(); DeploymentStatusUpdate events
via e.Deployment(); other event types are ignored. A decode error executes
a Go return from the handler, abandoning the remainder of the batch. -/
def eventHandler : List RawEvent → List String
  | [] => []
  | e :: rest =>
    if e.etype == "JobRegistered" || e.etype == "JobDeregistered" then
      match e.jobPayload with
      | Except.error _ => []
      | Except.ok jobId => jobId :: eventHandler rest
    else if e.etype == "DeploymentStatusUpdate" then
      match e.deploymentPayload with
      | Except.error _ => []
      | Except.ok jobId => jobId :: eventHandler rest
    else
      eventHandler rest

/-- One api.Events value received from the stream channel. -/
structure EventBatch where
  heartbeat : Bool
  events : List RawEvent
deriving Repr

/-- The subscription goroutine of SubscribeJobChanges over a finite
prefix of the delivered batches: heartbeat batches are skipped, every
other batch goes through eventHandler; the loop itself never stops before
context cancellation, so every batch is examined. -/
def subscriptionCallbacks (batches : List EventBatch) : List String :=
  match batches with
  | [] => []
  | b :: rest =>
    (if b.heartbeat then [] else eventHandler b.events) ++ subscriptionCallbacks rest

end NomadOps

namespace NomadOps

/-- C7: evaluated at a batch holding a malformed JobRegistered event
followed by a decodable one, the handler invokes the callback for neither
event — the decode failure abandons the whole remaining batch instead of
skipping only the single event — while a later batch is still processed,
so the subscription loop itself keeps running. -/
theorem eventHandler_decode_error_drops_rest_of_batch :
    eventHandler
      [{ etype := "JobRegistered", jobPayload := Except.error "malformed payload",
         deploymentPayload := Except.error "no deployment" },
       { etype := "JobRegistered", jobPayload := Except.ok "web",
         deploymentPayload := Except.error "no deployment" }] = [] ∧
    subscriptionCallbacks
      [{ heartbeat := false,
         events :=
           [{ etype := "JobRegistered", jobPayload := Except.error "malformed payload",
              deploymentPayload := Except.error "no deployment" },
            { etype := "JobRegistered", jobPayload := Except.ok "web",
              deploymentPayload := Except.error "no deployment" }] },
       { heartbeat := true, events := [] },
       { heartbeat := false,
         events :=
           [{ etype := "DeploymentStatusUpdate", jobPayload := Except.error "no job",
              deploymentPayload := Except.ok "db" }] }] = ["db"] := by
  decide

end NomadOps
